/-
Verification development for the MewbileTech monthly billing engine.

The model is a shallow embedding of the contract billing code
(`contract.py`, `phoneline.py`, `customer.py`).  Money amounts are
rationals (the Python source uses floats with exact decimal literals such
as 0.05, 0.1, 0.025; every quantity occurring in the verified properties
is an exact decimal, so ℚ is a faithful carrier).  Python `None` and
attribute errors / type errors are made explicit with `Option`: an
operation that can crash returns `none` in exactly the situations where
the Python code raises, and a Python method that can return `None`
returns an `Option` value.
-/
import Mathlib

/-- Minute conversion used by every `bill_call` in `contract.py`:
`ceil(call.duration / 60.0)`, for a non-negative integer duration. -/
def callMinutes (duration : ℕ) : ℕ := (duration + 59) / 60

/-- Modelled from the spec: `bill.py` is not under `src/`.  Spec §4.1: a
Bill accumulates a fixed cost, a per-minute rate with a label, billed
minutes and free minutes. -/
structure Bill where
  billType : String
  fixed_cost : ℚ
  min_rate : ℚ
  billed_min : ℕ
  free_min : ℕ
deriving DecidableEq

/-- Modelled from the spec: a Bill is "created fresh" for each cycle,
with empty accumulators. -/
def Bill.new : Bill :=
  { billType := "", fixed_cost := 0, min_rate := 0, billed_min := 0, free_min := 0 }

/-- Modelled from the spec: `set_rate(label, rate_per_minute)`. -/
def Bill.set_rates (b : Bill) (t : String) (r : ℚ) : Bill :=
  { b with billType := t, min_rate := r }

/-- Modelled from the spec: `add_fixed_cost(amount)` adds a possibly
negative amount to `fixed_cost`. -/
def Bill.add_fixed_cost (b : Bill) (c : ℚ) : Bill :=
  { b with fixed_cost := b.fixed_cost + c }

/-- Modelled from the spec: `add_billed_minutes(minutes)` increments
`billed_minutes`. -/
def Bill.add_billed_minutes (b : Bill) (m : ℕ) : Bill :=
  { b with billed_min := b.billed_min + m }

/-- Modelled from the spec: `total_cost() = fixed_cost + billed_minutes *
rate_per_minute` (free minutes do not affect cost). -/
def Bill.get_cost (b : Bill) : ℚ := b.fixed_cost + b.billed_min * b.min_rate

/-- A calendar date; only `month` and `year` are inspected by the
contract code, `day` is carried along as in `datetime.date`. -/
structure Date where
  year : ℕ
  month : ℕ
  day : ℕ
deriving DecidableEq

/-- Python's lexicographic `<` on `(month, year)` pairs, as used by
`TermContract.cancel_contract` on `self.saved_month` tuples. -/
def tupleLt (p q : ℕ × ℕ) : Bool := p.1 < q.1 || (p.1 = q.1 && p.2 < q.2)

/-- Python's lexicographic `>` on `(month, year)` pairs. -/
def tupleGt (p q : ℕ × ℕ) : Bool := tupleLt q p

-- Constants from the head of `contract.py`.
def MTM_MONTHLY_FEE : ℚ := 50
def TERM_MONTHLY_FEE : ℚ := 20
def TERM_DEPOSIT : ℚ := 300
def TERM_MINS : ℤ := 100
def MTM_MINS_COST : ℚ := 0.05
def TERM_MINS_COST : ℚ := 0.1
def PREPAID_MINS_COST : ℚ := 0.025

/-- State of a `TermContract`.  `start`/`endDate` are `Option` because the
source assigns `None` to them on cancellation; `bill` is `none` before the
first `new_month` (the attribute does not exist yet in the source, and
reading it raises); `saved_month` is `none` while the source still holds
its initial integer `0` (comparing that integer with a tuple raises). -/
structure TermContract where
  start : Option Date
  endDate : Option Date
  bill : Option Bill
  term_minutes : ℤ
  saved_month : Option (ℕ × ℕ)
deriving DecidableEq

/-- `TermContract.new_month`: store the bill, set rates "TERM"/0.1, reset
the allotment to 100, add the 20.00 monthly fee, add the 300.00 deposit
when (month, year) equals the start date's (month, year), and record
`saved_month = (month, year)`.  The returned `Bill` is the object stored
in `bill` (the caller's dictionary aliases it). -/
def TermContract.new_month (c : TermContract) (month year : ℕ) (bill : Bill) :
    Option (TermContract × Bill) :=
  match c.start with
  | none => none
  | some st =>
    let b1 := (bill.set_rates "TERM" TERM_MINS_COST).add_fixed_cost TERM_MONTHLY_FEE
    let b2 := if (month, year) = (st.month, st.year) then b1.add_fixed_cost TERM_DEPOSIT else b1
    some ({ c with bill := some b2, term_minutes := 100, saved_month := some (month, year) }, b2)

/-- `TermContract.bill_call`: with a positive allotment, all
`ceil(duration/60)` minutes are added to `free_min`, the allotment is
decremented by that amount, and when the allotment goes negative its
negation is billed; with allotment exactly 0 the call is billed in full;
with a negative allotment neither branch runs and nothing is recorded. -/
def TermContract.bill_call (c : TermContract) (duration : ℕ) : Option TermContract :=
  if 0 < c.term_minutes then
    match c.bill with
    | none => none
    | some b =>
      let m := callMinutes duration
      let b1 : Bill := { b with free_min := b.free_min + m }
      let tm := c.term_minutes - m
      if tm < 0 then
        some { c with bill := some (b1.add_billed_minutes (-tm).toNat), term_minutes := tm }
      else
        some { c with bill := some b1, term_minutes := tm }
  else if c.term_minutes = 0 then
    match c.bill with
    | none => none
    | some b => some { c with bill := some (b.add_billed_minutes (callMinutes duration)) }
  else
    some c

/-- `TermContract.cancel_contract`: compares `saved_month` with
`(end.month, end.year)` with Python tuple order.  When strictly greater
it clears `start`/`end` and subtracts 300 from the bill's fixed cost;
when strictly less it only clears `start`/`end`; on equality it does
nothing.  Every path computes (or skips) `get_cost` without a `return`
statement, so the Python method returns `None`: the second component of
the result is always `none`. -/
def TermContract.cancel_contract (c : TermContract) :
    Option (TermContract × Option ℚ) :=
  match c.saved_month with
  | none => none
  | some sm =>
    match c.endDate with
    | none => none
    | some e =>
      if tupleGt sm (e.month, e.year) then
        match c.bill with
        | none => none
        | some b =>
          some ({ c with start := none, endDate := none,
                         bill := some (b.add_fixed_cost (-300)) }, none)
      else if tupleLt sm (e.month, e.year) then
        match c.bill with
        | none => none
        | some _ => some ({ c with start := none, endDate := none }, none)
      else
        some (c, none)

/-- State of an `MTMContract`. -/
structure MTMContract where
  start : Option Date
  bill : Option Bill
deriving DecidableEq

/-- `MTMContract.new_month`: store the bill, set rates "MTM"/0.05, add the
50.00 monthly fee.  `month`/`year` are accepted and ignored, as in the
source. -/
def MTMContract.new_month (c : MTMContract) (_month _year : ℕ) (bill : Bill) :
    MTMContract × Bill :=
  let b := (bill.set_rates "MTM" MTM_MINS_COST).add_fixed_cost MTM_MONTHLY_FEE
  ({ c with bill := some b }, b)

/-- `Contract.bill_call`, inherited by `MTMContract`: bill
`ceil(duration/60)` minutes on the active bill. -/
def MTMContract.bill_call (c : MTMContract) (duration : ℕ) : Option MTMContract :=
  c.bill.map fun b => { c with bill := some (b.add_billed_minutes (callMinutes duration)) }

/-- `Contract.cancel_contract`, inherited by `MTMContract`: clear `start`
and return the bill's total cost, leaving the bill unchanged. -/
def MTMContract.cancel_contract (c : MTMContract) : Option (MTMContract × ℚ) :=
  c.bill.map fun b => ({ c with start := none }, b.get_cost)

/-- State of a `PrepaidContract`. -/
structure PrepaidContract where
  start : Option Date
  bill : Option Bill
  balance : ℚ
deriving DecidableEq

/-- `PrepaidContract.new_month`: store the bill, set rates
"PREPAID"/0.025, add the negation of the current balance as a fixed cost,
and then subtract 25 from the balance when it is above -10. -/
def PrepaidContract.new_month (c : PrepaidContract) (_month _year : ℕ) (bill : Bill) :
    PrepaidContract × Bill :=
  let b := (bill.set_rates "PREPAID" PREPAID_MINS_COST).add_fixed_cost (c.balance * (-1))
  ({ c with bill := some b,
            balance := if c.balance > -10 then c.balance - 25 else c.balance }, b)

/-- `PrepaidContract.bill_call`: bill `ceil(duration/60)` minutes. -/
def PrepaidContract.bill_call (c : PrepaidContract) (duration : ℕ) : Option PrepaidContract :=
  c.bill.map fun b => { c with bill := some (b.add_billed_minutes (callMinutes duration)) }

/-- `PrepaidContract.cancel_contract`: clear `start`; with a positive
balance, forfeit it onto the bill's fixed cost and return the bill total;
otherwise return 0.0 without touching the bill. -/
def PrepaidContract.cancel_contract (c : PrepaidContract) :
    Option (PrepaidContract × ℚ) :=
  if c.balance > 0 then
    c.bill.map fun b =>
      let b1 := b.add_fixed_cost c.balance
      ({ c with start := none, bill := some b1 }, b1.get_cost)
  else
    some ({ c with start := none }, 0)

/-- Polymorphic contract, dispatching to one of the three variants. -/
inductive Contract where
  | term : TermContract → Contract
  | mtm : MTMContract → Contract
  | prepaid : PrepaidContract → Contract
deriving DecidableEq

/-- Dispatch of `new_month`.  The `Bill` component of the result is the
object the contract stored in its `bill` attribute, which the calling
`PhoneLine` aliases in its `bills` dictionary. -/
def Contract.new_month : Contract → ℕ → ℕ → Bill → Option (Contract × Bill)
  | .term c, m, y, b => (c.new_month m y b).map fun p => (.term p.1, p.2)
  | .mtm c, m, y, b => some (.mtm (c.new_month m y b).1, (c.new_month m y b).2)
  | .prepaid c, m, y, b => some (.prepaid (c.new_month m y b).1, (c.new_month m y b).2)

/-- Dispatch of `cancel_contract`.  The fee is `Option ℚ` because
`TermContract.cancel_contract` returns Python `None`; the other variants
always return a number. -/
def Contract.cancel_contract : Contract → Option (Contract × Option ℚ)
  | .term c => (c.cancel_contract).map fun p => (.term p.1, p.2)
  | .mtm c => (c.cancel_contract).map fun p => (.mtm p.1, some p.2)
  | .prepaid c => (c.cancel_contract).map fun p => (.prepaid p.1, some p.2)

/-- A phone line: a number, its contract, and the `bills` dictionary
mapping a (month, year) cycle to that cycle's `Bill` (an association
list; the guard in `new_month` keeps keys unique). -/
structure PhoneLine where
  number : String
  contract : Contract
  bills : List ((ℕ × ℕ) × Bill)
deriving DecidableEq

/-- `PhoneLine.new_month`: when the (month, year) key is not yet in
`bills`, create a fresh `Bill`, advance the contract on it, and store the
resulting bill under the key; otherwise do nothing. -/
def PhoneLine.new_month (pl : PhoneLine) (month year : ℕ) : Option PhoneLine :=
  if pl.bills.any fun e => e.1 = (month, year) then
    some pl
  else
    (pl.contract.new_month month year Bill.new).map fun p =>
      { pl with contract := p.1, bills := ((month, year), p.2) :: pl.bills }

/-- `PhoneLine.cancel_line`: cancel the contract and hand back the fee it
returns (the cancelled line is discarded by the caller). -/
def PhoneLine.cancel_line (pl : PhoneLine) : Option (Option ℚ) :=
  (pl.contract.cancel_contract).map fun p => p.2

/-- A customer: an id and the owned phone lines. -/
structure Customer where
  id : ℕ
  phone_lines : List PhoneLine
deriving DecidableEq

/-- `Customer.get_phone_numbers`: the numbers of all owned lines. -/
def Customer.get_phone_numbers (c : Customer) : List String :=
  c.phone_lines.map fun l => l.number

/-- The `for pl in self._phone_lines` loop of
`Customer.cancel_phone_line`, with CPython's iterator semantics made
explicit: the iterator walks by index, so when the loop body removes the
matching element the element that shifts into its slot is skipped (`r`
below is carried over unexamined).  `remove(pl)` deletes the first
element identical to `pl`, i.e. the current slot, since a line object
occurs in the list at most once.  A crash inside `cancel_line` (`none`)
aborts the whole loop. -/
def Customer.cancelLinesLoop (number : String) :
    List PhoneLine → Option ℚ → Option (List PhoneLine × Option ℚ)
  | [], fee => some ([], fee)
  | q :: rest, fee =>
    if q.number = number then
      match q.cancel_line with
      | none => none
      | some f =>
        match rest with
        | [] => some ([], f)
        | r :: rest' =>
          (Customer.cancelLinesLoop number rest' f).map fun p => (r :: p.1, p.2)
    else
      (Customer.cancelLinesLoop number rest fee).map fun p => (q :: p.1, p.2)

/-- `Customer.cancel_phone_line`: scan the owned lines for `number`,
removing and cancelling each match; the fee starts as `None` and is the
last match's `cancel_line()` result. -/
def Customer.cancel_phone_line (c : Customer) (number : String) :
    Option (Customer × Option ℚ) :=
  (Customer.cancelLinesLoop number c.phone_lines none).map fun p =>
    ({ c with phone_lines := p.1 }, p.2)

/-- C9: the minute conversion `m(d) = ceil(d/60)` used by `record_call`
is monotonic (`d1 ≤ d2 → m(d1) ≤ m(d2)`) and satisfies
`m(d)*60 ≥ d > (m(d)-1)*60` (the strict lower bound over ℤ). -/
theorem callMinutes_monotone_and_bounds :
    (∀ d1 d2 : ℕ, d1 ≤ d2 → callMinutes d1 ≤ callMinutes d2) ∧
    (∀ d : ℕ, callMinutes d * 60 ≥ d ∧ (d : ℤ) > ((callMinutes d : ℤ) - 1) * 60) := by
  constructor
  · intro d1 d2 h
    unfold callMinutes
    omega
  · intro d
    unfold callMinutes
    constructor
    · omega
    · omega

theorem callMinutes_monotone_and_bounds_witness :
    callMinutes 61 ≤ callMinutes 130 ∧
    (callMinutes 90 * 60 ≥ 90 ∧ (90 : ℤ) > ((callMinutes 90 : ℤ) - 1) * 60) :=
  ⟨callMinutes_monotone_and_bounds.1 61 130 (by norm_num),
   callMinutes_monotone_and_bounds.2 90⟩

/-- C4: `PrepaidContract.new_month` adds a fixed cost equal to the
negation of the balance held before the call, and afterwards the balance
has strictly decreased by exactly 25 when that prior balance was > -10,
and is unchanged otherwise. -/
theorem prepaid_advance_spec (c : PrepaidContract) (m y : ℕ) (b : Bill) :
    (c.new_month m y b).2.fixed_cost = b.fixed_cost + (-c.balance) ∧
    (c.new_month m y b).1.bill = some (c.new_month m y b).2 ∧
    (c.balance > -10 →
      (c.new_month m y b).1.balance = c.balance - 25 ∧
      (c.new_month m y b).1.balance < c.balance) ∧
    (¬ c.balance > -10 → (c.new_month m y b).1.balance = c.balance) := by
  refine ⟨?_, ?_, ?_, ?_⟩
  · simp [PrepaidContract.new_month, Bill.add_fixed_cost, Bill.set_rates]
  · simp [PrepaidContract.new_month]
  · intro h
    have he : (c.new_month m y b).1.balance = c.balance - 25 := by
      simp [PrepaidContract.new_month, if_pos h]
    exact ⟨he, by rw [he]; linarith⟩
  · intro h
    simp [PrepaidContract.new_month, if_neg h]

theorem prepaid_advance_spec_witness :
    (({ start := some ⟨2017, 12, 25⟩, bill := none, balance := 100 } :
        PrepaidContract).new_month 12 2017 Bill.new).2.fixed_cost = -100 ∧
    (({ start := some ⟨2017, 12, 25⟩, bill := none, balance := 100 } :
        PrepaidContract).new_month 12 2017 Bill.new).1.balance = 75 := by
  have h := prepaid_advance_spec
    { start := some ⟨2017, 12, 25⟩, bill := none, balance := 100 } 12 2017 Bill.new
  refine ⟨?_, ?_⟩
  · rw [h.1]
    norm_num [Bill.new]
  · rw [(h.2.2.1 (by norm_num)).1]
    norm_num

/-- C5: `PrepaidContract.cancel_contract` with an active bill: with
`balance > 0` it adds the balance to the bill's fixed cost and returns
the resulting bill total; with `balance ≤ 0` it returns exactly 0.0 and
leaves the bill untouched. -/
theorem prepaid_cancel_spec (c : PrepaidContract) (b : Bill) (h : c.bill = some b) :
    (0 < c.balance → c.cancel_contract =
      some ({ c with start := none, bill := some (b.add_fixed_cost c.balance) },
            (b.add_fixed_cost c.balance).get_cost)) ∧
    (c.balance ≤ 0 → c.cancel_contract = some ({ c with start := none }, 0)) := by
  constructor
  · intro hb
    simp only [PrepaidContract.cancel_contract, if_pos (show c.balance > 0 from hb), h]
    rfl
  · intro hb
    simp only [PrepaidContract.cancel_contract, if_neg (not_lt.mpr hb)]

theorem prepaid_cancel_spec_witness :
    (({ start := some ⟨2017, 12, 25⟩, bill := some Bill.new, balance := 100 } :
        PrepaidContract).cancel_contract =
      some ({ start := none, bill := some (Bill.new.add_fixed_cost 100),
              balance := 100 }, (Bill.new.add_fixed_cost 100).get_cost)) ∧
    (({ start := some ⟨2017, 12, 25⟩, bill := some Bill.new, balance := -5 } :
        PrepaidContract).cancel_contract =
      some ({ start := none, bill := some Bill.new, balance := -5 }, 0)) :=
  ⟨(prepaid_cancel_spec
      { start := some ⟨2017, 12, 25⟩, bill := some Bill.new, balance := 100 }
      Bill.new rfl).1 (by norm_num),
   (prepaid_cancel_spec
      { start := some ⟨2017, 12, 25⟩, bill := some Bill.new, balance := -5 }
      Bill.new rfl).2 (by norm_num)⟩

/-- C6: `TermContract.new_month` sets rates "TERM"/0.10, resets the
allotment to 100, adds fixed cost 20.00, records (month, year) as
`saved_month`, and adds the 300.00 deposit exactly when (month, year)
equals the start date's (month, year) — so the deposit cycle gains 320 in
fixed cost and any other cycle gains 20. -/
theorem term_advance_spec (c : TermContract) (st : Date) (m y : ℕ) (b : Bill)
    (h : c.start = some st) :
    ∃ c' b', c.new_month m y b = some (c', b') ∧
      c'.bill = some b' ∧
      b'.billType = "TERM" ∧ b'.min_rate = 0.1 ∧
      c'.term_minutes = 100 ∧ c'.saved_month = some (m, y) ∧
      b'.billed_min = b.billed_min ∧ b'.free_min = b.free_min ∧
      ((m, y) = (st.month, st.year) → b'.fixed_cost = b.fixed_cost + 320) ∧
      ((m, y) ≠ (st.month, st.year) → b'.fixed_cost = b.fixed_cost + 20) := by
  by_cases hmy : (m, y) = (st.month, st.year)
  · refine ⟨{ c with
        bill := some (((b.set_rates "TERM" TERM_MINS_COST).add_fixed_cost
          TERM_MONTHLY_FEE).add_fixed_cost TERM_DEPOSIT),
        term_minutes := 100, saved_month := some (m, y) },
      ((b.set_rates "TERM" TERM_MINS_COST).add_fixed_cost
        TERM_MONTHLY_FEE).add_fixed_cost TERM_DEPOSIT,
      ?_, rfl, rfl, ?_, rfl, rfl, rfl, rfl, ?_, ?_⟩
    · simp [TermContract.new_month, h, hmy]
    · norm_num [Bill.set_rates, Bill.add_fixed_cost, TERM_MINS_COST]
    · intro _
      simp only [Bill.add_fixed_cost, Bill.set_rates, TERM_MONTHLY_FEE, TERM_DEPOSIT]
      linarith
    · intro hne
      exact absurd hmy hne
  · refine ⟨{ c with
        bill := some ((b.set_rates "TERM" TERM_MINS_COST).add_fixed_cost
          TERM_MONTHLY_FEE),
        term_minutes := 100, saved_month := some (m, y) },
      (b.set_rates "TERM" TERM_MINS_COST).add_fixed_cost TERM_MONTHLY_FEE,
      ?_, rfl, rfl, ?_, rfl, rfl, rfl, rfl, ?_, ?_⟩
    · simp [TermContract.new_month, h, hmy]
    · norm_num [Bill.set_rates, Bill.add_fixed_cost, TERM_MINS_COST]
    · intro hc
      exact absurd hc hmy
    · intro _
      simp only [Bill.add_fixed_cost, Bill.set_rates, TERM_MONTHLY_FEE]

theorem term_advance_spec_witness :
    (∃ c' b',
      (({ start := some ⟨2017, 12, 25⟩, endDate := some ⟨2019, 6, 25⟩, bill := none,
          term_minutes := 0, saved_month := none } : TermContract).new_month
        12 2017 Bill.new) = some (c', b') ∧
      c'.bill = some b' ∧
      b'.billType = "TERM" ∧ b'.min_rate = 0.1 ∧
      c'.term_minutes = 100 ∧ c'.saved_month = some (12, 2017) ∧
      b'.billed_min = Bill.new.billed_min ∧ b'.free_min = Bill.new.free_min ∧
      ((12, 2017) = ((⟨2017, 12, 25⟩ : Date).month, (⟨2017, 12, 25⟩ : Date).year) →
        b'.fixed_cost = Bill.new.fixed_cost + 320) ∧
      ((12, 2017) ≠ ((⟨2017, 12, 25⟩ : Date).month, (⟨2017, 12, 25⟩ : Date).year) →
        b'.fixed_cost = Bill.new.fixed_cost + 20)) ∧
    ((12, 2017) = ((⟨2017, 12, 25⟩ : Date).month, (⟨2017, 12, 25⟩ : Date).year) ∧
      Bill.new.fixed_cost + 320 = 320) :=
  ⟨term_advance_spec
    { start := some ⟨2017, 12, 25⟩, endDate := some ⟨2019, 6, 25⟩, bill := none,
      term_minutes := 0, saved_month := none } ⟨2017, 12, 25⟩ 12 2017 Bill.new rfl,
   by constructor
      · rfl
      · norm_num [Bill.new]⟩

/-- C7: `MTMContract.new_month` sets rates "MTM"/0.05 and adds fixed cost
50.00, and `cancel_contract` returns exactly the current bill's total
with no fee adjustment and no change to the bill. -/
theorem mtm_advance_close_spec (c : MTMContract) (m y : ℕ) (b : Bill)
    (c2 : MTMContract) (b2 : Bill) (h : c2.bill = some b2) :
    ((c.new_month m y b).2.billType = "MTM" ∧
     (c.new_month m y b).2.min_rate = 0.05 ∧
     (c.new_month m y b).2.fixed_cost = b.fixed_cost + 50 ∧
     (c.new_month m y b).2.billed_min = b.billed_min ∧
     (c.new_month m y b).2.free_min = b.free_min ∧
     (c.new_month m y b).1.bill = some (c.new_month m y b).2) ∧
    c2.cancel_contract = some ({ c2 with start := none }, b2.get_cost) := by
  constructor
  · refine ⟨?_, ?_, ?_, ?_, ?_, ?_⟩ <;>
      simp [MTMContract.new_month, Bill.set_rates, Bill.add_fixed_cost,
        MTM_MINS_COST, MTM_MONTHLY_FEE]
  · simp only [MTMContract.cancel_contract, h]
    rfl

theorem mtm_advance_close_spec_witness :
    (({ start := some ⟨2017, 12, 25⟩,
        bill := some (((Bill.new.set_rates "MTM" MTM_MINS_COST).add_fixed_cost
          MTM_MONTHLY_FEE).add_billed_minutes (callMinutes 50)) } :
       MTMContract).cancel_contract =
      some ({ start := none,
              bill := some (((Bill.new.set_rates "MTM" MTM_MINS_COST).add_fixed_cost
                MTM_MONTHLY_FEE).add_billed_minutes (callMinutes 50)) },
            (((Bill.new.set_rates "MTM" MTM_MINS_COST).add_fixed_cost
              MTM_MONTHLY_FEE).add_billed_minutes (callMinutes 50)).get_cost)) ∧
    (((Bill.new.set_rates "MTM" MTM_MINS_COST).add_fixed_cost
      MTM_MONTHLY_FEE).add_billed_minutes (callMinutes 50)).get_cost = 50.05 := by
  constructor
  · exact (mtm_advance_close_spec { start := some ⟨2017, 12, 25⟩, bill := none }
      1 2018 Bill.new _ _ rfl).2
  · norm_num [Bill.get_cost, Bill.new, Bill.set_rates, Bill.add_fixed_cost,
      Bill.add_billed_minutes, callMinutes, MTM_MINS_COST, MTM_MONTHLY_FEE]

/-- C1: whenever `TermContract.cancel_contract` completes, the value it
hands back is Python `None`, never the final bill's total: neither branch
of the source method has a `return` statement, so the computed
`get_cost()` is discarded.  This refutes the claim that `close()` returns
the final bill's total in the after- and before-`end_date` cases. -/
theorem term_cancel_returns_none (c : TermContract) (r : TermContract × Option ℚ)
    (h : c.cancel_contract = some r) : r.2 = none := by
  obtain ⟨st, ed, bl, tm, sv⟩ := c
  rcases sv with _ | sm
  · exact absurd h (by simp [TermContract.cancel_contract])
  rcases ed with _ | e
  · exact absurd h (by simp [TermContract.cancel_contract])
  rcases bl with _ | b <;>
    simp only [TermContract.cancel_contract] at h <;>
    split_ifs at h <;>
    first
      | exact Option.noConfusion h
      | (simp only [Option.some_inj] at h; rw [← h])

theorem term_cancel_returns_none_witness :
    (({ start := none, endDate := none,
        bill := some (((Bill.new.set_rates "TERM" TERM_MINS_COST).add_fixed_cost
          TERM_MONTHLY_FEE).add_fixed_cost (-300)),
        term_minutes := 100, saved_month := some (12, 2019) } : TermContract),
      (none : Option ℚ)).2 = none :=
  term_cancel_returns_none
    { start := some ⟨2017, 12, 25⟩, endDate := some ⟨2019, 6, 25⟩,
      bill := some ((Bill.new.set_rates "TERM" TERM_MINS_COST).add_fixed_cost
        TERM_MONTHLY_FEE),
      term_minutes := 100, saved_month := some (12, 2019) } _ rfl

/-- C3: `cancel_contract` compares `saved_month` with
`(end.month, end.year)` as Python tuples, month first.  With last cycle
(1, 2020) and end date 2019-06-25, the year 2020 is strictly after 2019,
yet `(1, 2020) < (6, 2019)` lexicographically, so the early-cancellation
branch runs: the bill keeps its fixed cost of 20 and no 300.00 deposit
refund is applied, contradicting the chronological reading. -/
theorem term_cancel_tuple_compare_no_refund :
    (({ start := some ⟨2017, 12, 25⟩, endDate := some ⟨2019, 6, 25⟩,
        bill := some ((Bill.new.set_rates "TERM" TERM_MINS_COST).add_fixed_cost
          TERM_MONTHLY_FEE),
        term_minutes := 100, saved_month := some (1, 2020) } : TermContract).cancel_contract =
      some ({ start := none, endDate := none,
              bill := some ((Bill.new.set_rates "TERM" TERM_MINS_COST).add_fixed_cost
                TERM_MONTHLY_FEE),
              term_minutes := 100, saved_month := some (1, 2020) }, none)) ∧
    ((Bill.new.set_rates "TERM" TERM_MINS_COST).add_fixed_cost
      TERM_MONTHLY_FEE).fixed_cost = 20 ∧
    (2019 : ℕ) < 2020 := by
  refine ⟨rfl, ?_, by norm_num⟩
  norm_num [Bill.new, Bill.set_rates, Bill.add_fixed_cost, TERM_MONTHLY_FEE]

/-- C2 counterexample: a TermContract with 1 included minute left takes a
120-second call (2 ceil-minutes).  The code adds **all** 2 minutes to
`free_min` (the claim allows at most 1) and bills 1 overage minute, so
free plus overage is 3, not the call's 2 total minutes. -/
theorem term_bill_call_free_uncapped :
    (({ start := some ⟨2017, 12, 25⟩, endDate := some ⟨2019, 6, 25⟩,
        bill := some Bill.new, term_minutes := 1,
        saved_month := some (12, 2017) } : TermContract).bill_call 120 =
      some { start := some ⟨2017, 12, 25⟩, endDate := some ⟨2019, 6, 25⟩,
             bill := some { billType := "", fixed_cost := 0, min_rate := 0,
                            billed_min := 1, free_min := 2 },
             term_minutes := -1, saved_month := some (12, 2017) }) ∧
    callMinutes 120 = 2 ∧ 2 + 1 ≠ 2 := by
  refine ⟨rfl, by decide, by decide⟩

/-- C2 amended: with a positive allotment, `bill_call` adds **all**
`m = ceil(duration/60)` minutes to `free_min` (not capped by the
allotment), decrements the allotment by `m`, and bills exactly
`m - allotment` overage minutes when `m` exceeds the allotment (natural
subtraction: 0 otherwise); the fixed cost is untouched.  Free minutes
thus count every minute of a call served under a positive allotment,
including the minutes simultaneously billed as overage. -/
theorem term_bill_call_overage_split (c : TermContract) (b : Bill) (d : ℕ)
    (h : c.bill = some b) (hpos : 0 < c.term_minutes) :
    ∃ c' b', c.bill_call d = some c' ∧ c'.bill = some b' ∧
      b'.free_min = b.free_min + callMinutes d ∧
      c'.term_minutes = c.term_minutes - callMinutes d ∧
      b'.billed_min = b.billed_min + (callMinutes d - c.term_minutes.toNat) ∧
      b'.fixed_cost = b.fixed_cost := by
  unfold TermContract.bill_call
  rw [if_pos hpos, h]
  by_cases hlt : c.term_minutes - (callMinutes d : ℤ) < 0
  · simp only [if_pos hlt]
    refine ⟨_, _, rfl, rfl, rfl, rfl, ?_, rfl⟩
    show b.billed_min + (-(c.term_minutes - (callMinutes d : ℤ))).toNat =
      b.billed_min + (callMinutes d - c.term_minutes.toNat)
    omega
  · simp only [if_neg hlt]
    refine ⟨_, _, rfl, rfl, rfl, rfl, ?_, rfl⟩
    show b.billed_min = b.billed_min + (callMinutes d - c.term_minutes.toNat)
    omega

theorem term_bill_call_overage_split_witness :
    ∃ c' b',
      (({ start := some ⟨2017, 12, 25⟩, endDate := some ⟨2019, 6, 25⟩,
          bill := some Bill.new, term_minutes := 1,
          saved_month := some (12, 2017) } : TermContract).bill_call 120 = some c') ∧
      c'.bill = some b' ∧
      b'.free_min = Bill.new.free_min + callMinutes 120 ∧
      c'.term_minutes = 1 - callMinutes 120 ∧
      b'.billed_min = Bill.new.billed_min + (callMinutes 120 - (1 : ℤ).toNat) ∧
      b'.fixed_cost = Bill.new.fixed_cost :=
  term_bill_call_overage_split
    { start := some ⟨2017, 12, 25⟩, endDate := some ⟨2019, 6, 25⟩,
      bill := some Bill.new, term_minutes := 1, saved_month := some (12, 2017) }
    Bill.new 120 rfl (by norm_num)

/-- C8: `PhoneLine.new_month` guards on the (month, year) key already
being in `bills`, so a second advance to an already-billed cycle is a
no-op: the line (in particular the stored bill and its fixed cost) is
returned unchanged. -/
theorem phoneline_new_month_idem (pl pl1 : PhoneLine) (m y : ℕ)
    (h : pl.new_month m y = some pl1) : pl1.new_month m y = some pl1 := by
  unfold PhoneLine.new_month at h ⊢
  by_cases hk : pl.bills.any fun e => e.1 = (m, y)
  · rw [if_pos hk] at h
    simp only [Option.some_inj] at h
    rw [← h, if_pos hk]
  · rw [if_neg hk] at h
    rcases hc : pl.contract.new_month m y Bill.new with _ | p
    · rw [hc] at h
      exact Option.noConfusion h
    · rw [hc] at h
      simp only [Option.map_some', Option.some_inj] at h
      rw [← h]
      rw [if_pos (by simp)]

theorem phoneline_new_month_idem_witness :
    ({ number := "273-8255",
       contract := .mtm ({ start := some ⟨2017, 12, 25⟩,
                           bill := some ((Bill.new.set_rates "MTM"
                             MTM_MINS_COST).add_fixed_cost MTM_MONTHLY_FEE) }),
       bills := [((12, 2017),
         (Bill.new.set_rates "MTM" MTM_MINS_COST).add_fixed_cost MTM_MONTHLY_FEE)] } :
      PhoneLine).new_month 12 2017 =
    some { number := "273-8255",
           contract := .mtm ({ start := some ⟨2017, 12, 25⟩,
                               bill := some ((Bill.new.set_rates "MTM"
                                 MTM_MINS_COST).add_fixed_cost MTM_MONTHLY_FEE) }),
           bills := [((12, 2017),
             (Bill.new.set_rates "MTM" MTM_MINS_COST).add_fixed_cost MTM_MONTHLY_FEE)] } :=
  phoneline_new_month_idem
    { number := "273-8255",
      contract := .mtm ({ start := some ⟨2017, 12, 25⟩, bill := none }),
      bills := [] }
    _ 12 2017 rfl

/-- Scanning phase of `Customer.cancel_phone_line`: when no remaining
line carries the searched number, the loop returns the lines and the
carried fee unchanged. -/
theorem cancelLinesLoop_no_match (number : String) (lines : List PhoneLine)
    (fee : Option ℚ) (h : ∀ q ∈ lines, q.number ≠ number) :
    Customer.cancelLinesLoop number lines fee = some (lines, fee) := by
  induction lines with
  | nil => rfl
  | cons q rest ih =>
    unfold Customer.cancelLinesLoop
    rw [if_neg (h q (List.mem_cons_self q rest))]
    rw [ih fun x hx => h x (List.mem_cons_of_mem q hx)]
    rfl

/-- `Customer.cancel_phone_line`'s loop on a list holding exactly one
line with the searched number: the match is removed and cancelled, every
other line survives in order, and the fee is the match's `cancel_line()`
result. -/
theorem cancelLinesLoop_unique_match (number : String) (pre : List PhoneLine)
    (pl : PhoneLine) (post : List PhoneLine) (fee : Option ℚ) (f : Option ℚ)
    (hpre : ∀ q ∈ pre, q.number ≠ number) (hpl : pl.number = number)
    (hpost : ∀ q ∈ post, q.number ≠ number) (hf : pl.cancel_line = some f) :
    Customer.cancelLinesLoop number (pre ++ pl :: post) fee = some (pre ++ post, f) := by
  induction pre generalizing fee with
  | nil =>
    simp only [List.nil_append]
    unfold Customer.cancelLinesLoop
    rw [if_pos hpl, hf]
    cases post with
    | nil => rfl
    | cons r rest' =>
      show Option.map (fun p => (r :: p.1, p.2))
        (Customer.cancelLinesLoop number rest' f) = some (r :: rest', f)
      rw [cancelLinesLoop_no_match number rest' f
        fun x hx => hpost x (List.mem_cons_of_mem r hx)]
      rfl
  | cons q pre' ih =>
    simp only [List.cons_append]
    unfold Customer.cancelLinesLoop
    rw [if_neg (hpre q (List.mem_cons_self q pre'))]
    rw [ih fee fun x hx => hpre x (List.mem_cons_of_mem q hx)]
    rfl

/-- C10: `Customer.cancel_phone_line(number)` returns `None` and leaves
the line list unchanged when no owned line has that number; when exactly
one owned line has it, that line is removed (the number disappears from
`get_phone_numbers`), every other line stays, and the line's
`cancel_line()` settlement is returned. -/
theorem customer_cancel_phone_line_spec :
    (∀ (c : Customer) (number : String),
      (∀ q ∈ c.phone_lines, q.number ≠ number) →
      c.cancel_phone_line number = some (c, none)) ∧
    (∀ (c : Customer) (number : String) (pre : List PhoneLine) (pl : PhoneLine)
      (post : List PhoneLine) (f : Option ℚ),
      c.phone_lines = pre ++ pl :: post →
      pl.number = number →
      (∀ q ∈ pre, q.number ≠ number) →
      (∀ q ∈ post, q.number ≠ number) →
      pl.cancel_line = some f →
      c.cancel_phone_line number =
        some ({ c with phone_lines := pre ++ post }, f) ∧
      number ∉ Customer.get_phone_numbers { c with phone_lines := pre ++ post }) := by
  constructor
  · intro c number h
    unfold Customer.cancel_phone_line
    rw [cancelLinesLoop_no_match number c.phone_lines none h]
    rfl
  · intro c number pre pl post f hsplit hpl hpre hpost hf
    constructor
    · unfold Customer.cancel_phone_line
      rw [hsplit, cancelLinesLoop_unique_match number pre pl post none f hpre hpl hpost hf]
      rfl
    · intro hmem
      simp only [Customer.get_phone_numbers, List.mem_map] at hmem
      obtain ⟨q, hq, hqn⟩ := hmem
      rcases List.mem_append.mp hq with hq1 | hq2
      · exact hpre q hq1 hqn
      · exact hpost q hq2 hqn

theorem customer_cancel_phone_line_spec_witness :
    (({ id := 5555, phone_lines := [{ number := "867-5309", contract := .mtm ({ start := some ⟨2017, 12, 25⟩, bill := some Bill.new }), bills := [] }] } : Customer).cancel_phone_line "649-2568" =
      some (({ id := 5555, phone_lines := [{ number := "867-5309", contract := .mtm ({ start := some ⟨2017, 12, 25⟩, bill := some Bill.new }), bills := [] }] } : Customer), none)) ∧
    (({ id := 5555, phone_lines := [{ number := "867-5309", contract := .mtm ({ start := some ⟨2017, 12, 25⟩, bill := some Bill.new }), bills := [] }] } : Customer).cancel_phone_line "867-5309" =
      some ({ id := 5555, phone_lines := [] }, some Bill.new.get_cost)) := by
  constructor
  · exact customer_cancel_phone_line_spec.1
      { id := 5555, phone_lines := [{ number := "867-5309", contract := .mtm ({ start := some ⟨2017, 12, 25⟩, bill := some Bill.new }), bills := [] }] } "649-2568"
      (by intro q hq; simp only [List.mem_singleton] at hq; rw [hq]; decide)
  · exact (customer_cancel_phone_line_spec.2
      { id := 5555, phone_lines := [{ number := "867-5309", contract := .mtm ({ start := some ⟨2017, 12, 25⟩, bill := some Bill.new }), bills := [] }] } "867-5309" []
      { number := "867-5309", contract := .mtm ({ start := some ⟨2017, 12, 25⟩, bill := some Bill.new }), bills := [] }
      [] (some Bill.new.get_cost)
      rfl rfl (by intro q hq; cases hq) (by intro q hq; cases hq) rfl).1
